import Mathlib

/-!
Verification of the AdjNews SDK client (`src/adjnews.py`) against its
natural-language specification.

The single source file implements a thin HTTP API client:
* `AdjNews.__init__` resolves a bearer credential (argument or the
  `ADJ_NEWS_API_KEY` environment variable) and builds a session whose
  default headers carry `Authorization: Bearer <key>` and
  `Accept: application/json`;
* `AdjNews._get` joins the fixed base URL with an endpoint path, issues a
  GET, raises `AdjNewsError` on any `requests.RequestException` (connection
  errors, timeouts, `raise_for_status` on HTTP 4xx/5xx, JSON decode
  failures), and otherwise returns the decoded JSON body;
* `semantic_search` and `list_markets` assemble query-parameter dicts and
  delegate to `_get`.

The embedding below mirrors that code.  The network itself is abstracted as
a `TransportOutcome` value (what `session.get` / `raise_for_status` /
`response.json()` observed), since the HTTP stack is library code outside
the repository; everything the repository's own lines do — parameter
assembly, truthiness tests, string formatting, URL joining, the
try/except translation — is embedded directly.
-/

namespace AdjNewsSDK

/-- Decoded JSON values, as returned by `response.json()`. -/
inductive Json where
  | null : Json
  | bool (b : Bool) : Json
  | num (q : ℚ) : Json
  | str (s : String) : Json
  | arr (elems : List Json) : Json
  | obj (fields : List (String × Json)) : Json
deriving Repr

/-- Python scalar values that can appear in a query-parameter dict.
`float` is carried as a rational: the client never computes with it,
it only forwards the caller's value. -/
inductive PyVal where
  | str (s : String) : PyVal
  | int (n : ℤ) : PyVal
  | float (q : ℚ) : PyVal
  | bool (b : Bool) : PyVal
deriving DecidableEq, Repr

/-- A raised Python exception: its class name and its message
(`str(e)`).  The only class this module itself raises is
`AdjNewsError`. -/
structure PyExc where
  cls : String
  msg : String
deriving DecidableEq, Repr

/-- Python `s.rstrip(c)`: remove every trailing occurrence of `c`. -/
def pyRstripChar (c : Char) (s : String) : String :=
  ⟨(s.toList.reverse.dropWhile (· = c)).reverse⟩

/-- Python `s.lstrip(c)`: remove every leading occurrence of `c`. -/
def pyLstripChar (c : Char) (s : String) : String :=
  ⟨s.toList.dropWhile (· = c)⟩

/-- Python `str(b).lower()` for a `bool`: `"true"` or `"false"`. -/
def pyStrBoolLower (b : Bool) : String :=
  if b then "true" else "false"

/-- Python truthiness of an `Optional[str]` value:
`None` and `""` are falsy, every other string is truthy. -/
def pyTruthyOptStr : Option String → Bool
  | Option.none => false
  | Option.some s => !(s = "")

/-- Constant `AdjNews.BASE_URL` (line 17 of the source). -/
def BASE_URL : String := "https://api.data.adj.news"

/-- Line 37 of the source:
`url = f"{self.BASE_URL.rstrip('/')}/{endpoint.lstrip('/')}"`,
generalised over the base string it interpolates. -/
def joinUrl (base endpoint : String) : String :=
  pyRstripChar '/' base ++ "/" ++ pyLstripChar '/' endpoint

/-- The state of a constructed `AdjNews` client: the stored credential
and the default headers of its `requests.Session`. -/
structure Client where
  api_key : String
  sessionHeaders : List (String × String)
deriving DecidableEq, Repr

/-- Method `AdjNews._init_session` (lines 28–34): a fresh session whose default
headers are updated with the two entries below. -/
def initSessionHeaders (api_key : String) : List (String × String) :=
  [("Authorization", "Bearer " ++ api_key), ("Accept", "application/json")]

/-- The exception raised at construction time (line 23). -/
def credentialNotFoundExc : PyExc :=
  ⟨"AdjNewsError", "ADJ_NEWS_API_KEY Not Found."⟩

/-- Constructor `AdjNews.__init__` (lines 19–26).  `api_key` is the constructor
argument (`None` when omitted); `env` is the value of
`os.getenv("ADJ_NEWS_API_KEY", None)`.  If the argument is falsy the
environment value replaces it; if the result is still falsy the
constructor raises, otherwise it stores the key and builds the session. -/
def adjNewsInit (api_key : Option String) (env : Option String) :
    Except PyExc Client :=
  let key := if pyTruthyOptStr api_key then api_key else env
  if pyTruthyOptStr key then
    Except.ok { api_key := key.getD "", sessionHeaders := initSessionHeaders (key.getD "") }
  else
    Except.error credentialNotFoundExc

/-- What the HTTP stack observed for one `session.get` call.  This is the
abstraction boundary with the `requests` library: either the call raised a
`RequestException` before a response existed (connection error, timeout),
or a response arrived carrying a status code, the message `raise_for_status`
would raise for it, the JSON decode result of its body (`none` when the body
is not parseable JSON), and the message the JSON decoder would raise. -/
inductive TransportOutcome where
  | exc (desc : String) : TransportOutcome
  | resp (status : ℕ) (statusErrDesc : String)
      (body : Option Json) (decodeErrDesc : String) : TransportOutcome
deriving Repr

/-- Predicate for `Response.raise_for_status`: it raises exactly when
`400 <= status_code < 600`. -/
def httpErrorStatus (status : ℕ) : Bool :=
  decide (400 ≤ status ∧ status < 600)

/-- The result value of `AdjNews._get` (lines 36–43): build the URL, then
`response.raise_for_status()` and `response.json()` inside a
`try/except requests.RequestException` that re-raises every failure as
`AdjNewsError(f"GET {url} failed: {e}")`. -/
def adjGetResult (endpoint : String) (o : TransportOutcome) :
    Except PyExc Json :=
  let url := joinUrl BASE_URL endpoint
  match o with
  | TransportOutcome.exc d =>
      Except.error ⟨"AdjNewsError", "GET " ++ url ++ " failed: " ++ d⟩
  | TransportOutcome.resp status statusErrDesc body decodeErrDesc =>
      if httpErrorStatus status then
        Except.error ⟨"AdjNewsError", "GET " ++ url ++ " failed: " ++ statusErrDesc⟩
      else
        match body with
        | Option.some j => Except.ok j
        | Option.none =>
            Except.error ⟨"AdjNewsError", "GET " ++ url ++ " failed: " ++ decodeErrDesc⟩

/-- The outgoing request `self.session.get(url, params=params)` issues:
the joined URL, the session's default headers, and the per-call query
parameters. -/
structure HttpRequest where
  url : String
  headers : List (String × String)
  params : List (String × PyVal)
deriving DecidableEq, Repr

/-- Everything observable about one client call: the request it sent, the
value it returned or the exception it raised, and the client state after
the call. -/
structure CallResult where
  request : HttpRequest
  result : Except PyExc Json
  client : Client

/-- Method `AdjNews._get` as a client method: it reads `self.session` to send the
request and never assigns to any attribute of `self`. -/
def clientGet (c : Client) (endpoint : String)
    (params : List (String × PyVal)) (o : TransportOutcome) : CallResult :=
  { request := { url := joinUrl BASE_URL endpoint,
                 headers := c.sessionHeaders, params := params },
    result := adjGetResult endpoint o,
    client := c }

/-- The parameter dict built by `semantic_search` (line 80):
`{"q": query, "limit": limit, "include_context": include_context}`.
Note the third value is the native boolean, unconverted. -/
def semanticSearchParams (query : String) (limit : ℤ)
    (include_context : Bool) : List (String × PyVal) :=
  [("q", PyVal.str query), ("limit", PyVal.int limit),
   ("include_context", PyVal.bool include_context)]

/-- Python defaults of `semantic_search`: `limit=10`,
`include_context=False`. -/
def semanticSearchLimitDefault : ℤ := 10

def semanticSearchIncludeContextDefault : Bool := false

/-- Method `AdjNews.semantic_search` (lines 45–81). -/
def semantic_search (c : Client) (query : String) (limit : ℤ)
    (include_context : Bool) (o : TransportOutcome) : CallResult :=
  clientGet c "/api/search/query" (semanticSearchParams query limit include_context) o

/-- The sixteen arguments of `list_markets` with their Python types:
required-with-default arguments are plain, optional ones are `Option`
(`None` when the caller left them unset). -/
structure ListMarketsArgs where
  limit : ℤ
  offset : ℤ
  platform : Option String
  status : Option String
  category : Option String
  market_type : Option String
  keyword : Option String
  tag : Option String
  created_after : Option String
  created_before : Option String
  probability_min : Option ℚ
  probability_max : Option ℚ
  sort_by : String
  sort_dir : String
  include_closed : Bool
  include_resolved : Bool
deriving DecidableEq, Repr

/-- The Python default values of `list_markets` (lines 85–100). -/
def listMarketsDefaults : ListMarketsArgs :=
  { limit := 5, offset := 0,
    platform := Option.none, status := Option.none, category := Option.none,
    market_type := Option.none, keyword := Option.none, tag := Option.none,
    created_after := Option.none, created_before := Option.none,
    probability_min := Option.none, probability_max := Option.none,
    sort_by := "updated_at", sort_dir := "desc",
    include_closed := false, include_resolved := false }

/-- The initial `params` dict of `list_markets` (lines 146–153): the six
always-present entries, with the two booleans serialised via
`str(b).lower()`. -/
def listMarketsRequiredParams (a : ListMarketsArgs) : List (String × PyVal) :=
  [("limit", PyVal.int a.limit),
   ("offset", PyVal.int a.offset),
   ("sort_by", PyVal.str a.sort_by),
   ("sort_dir", PyVal.str a.sort_dir),
   ("include_closed", PyVal.str (pyStrBoolLower a.include_closed)),
   ("include_resolved", PyVal.str (pyStrBoolLower a.include_resolved))]

/-- The `optional_params` dict of `list_markets` (lines 154–165), in
source order, values still optional. -/
def listMarketsOptionalPairs (a : ListMarketsArgs) :
    List (String × Option PyVal) :=
  [("platform", a.platform.map PyVal.str),
   ("status", a.status.map PyVal.str),
   ("category", a.category.map PyVal.str),
   ("market_type", a.market_type.map PyVal.str),
   ("keyword", a.keyword.map PyVal.str),
   ("tag", a.tag.map PyVal.str),
   ("created_after", a.created_after.map PyVal.str),
   ("created_before", a.created_before.map PyVal.str),
   ("probability_min", a.probability_min.map PyVal.float),
   ("probability_max", a.probability_max.map PyVal.float)]

/-- The filtering loop of lines 166–168: append each optional entry whose
value `is not None`, in dict order. -/
def optFilter (l : List (String × Option PyVal)) : List (String × PyVal) :=
  l.filterMap fun kv => kv.2.map fun v => (kv.1, v)

/-- The complete `params` dict `list_markets` passes to `_get`. -/
def listMarketsParams (a : ListMarketsArgs) : List (String × PyVal) :=
  listMarketsRequiredParams a ++ optFilter (listMarketsOptionalPairs a)

/-- Method `AdjNews.list_markets` (lines 83–169). -/
def list_markets (c : Client) (a : ListMarketsArgs) (o : TransportOutcome) :
    CallResult :=
  clientGet c "/api/markets" (listMarketsParams a) o

/-- Whether a transport outcome makes `_get` raise: an exception from
`session.get`, an HTTP error status, or an unparseable body. -/
def outcomeFails : TransportOutcome → Bool
  | TransportOutcome.exc _ => true
  | TransportOutcome.resp status _ body _ => httpErrorStatus status || body.isNone

/-- The underlying-cause text (`str(e)` of the caught exception) that ends
up in the `AdjNewsError` message for a failing outcome. -/
def outcomeCauseDesc : TransportOutcome → String
  | TransportOutcome.exc d => d
  | TransportOutcome.resp status statusErrDesc _ decodeErrDesc =>
      if httpErrorStatus status then statusErrDesc else decodeErrDesc

/-! ### Helper lemmas about association-list lookup over the
filtered optional-parameter list -/

theorem optFilter_nil : optFilter [] = [] := rfl

theorem optFilter_cons_none (k : String) (l : List (String × Option PyVal)) :
    optFilter ((k, Option.none) :: l) = optFilter l := rfl

theorem optFilter_cons_some (k : String) (v : PyVal)
    (l : List (String × Option PyVal)) :
    optFilter ((k, Option.some v) :: l) = (k, v) :: optFilter l := rfl

theorem lookup_cons_ne (k k1 : String) (v : PyVal) (l : List (String × PyVal))
    (h : (k == k1) = false) :
    List.lookup k ((k1, v) :: l) = List.lookup k l := by
  simp [List.lookup, h]

theorem lookup_optFilter_cons_ne (k k1 : String) (o : Option PyVal)
    (l : List (String × Option PyVal)) (h : (k == k1) = false) :
    List.lookup k (optFilter ((k1, o) :: l)) = List.lookup k (optFilter l) := by
  cases o with
  | none => rw [optFilter_cons_none]
  | some v => rw [optFilter_cons_some, lookup_cons_ne _ _ _ _ h]

theorem lookup_isSome_iff_mem_keys (k : String) (l : List (String × PyVal)) :
    (List.lookup k l).isSome = true ↔ k ∈ l.map Prod.fst := by
  induction l with
  | nil => simp [List.lookup]
  | cons kv t ih =>
    obtain ⟨k1, v⟩ := kv
    by_cases hk : k = k1
    · subst hk; simp [List.lookup]
    · have hb : (k == k1) = false := beq_eq_false_iff_ne.mpr hk
      simp [List.lookup, hb, ih, hk]

theorem lookup_lm_platform (a : ListMarketsArgs) :
    List.lookup "platform" (listMarketsParams a) = a.platform.map PyVal.str := by
  cases h : a.platform with
  | none =>
      simp [listMarketsParams, listMarketsRequiredParams, listMarketsOptionalPairs,
        List.lookup, h, lookup_optFilter_cons_ne, optFilter_cons_none, optFilter_nil]
  | some v =>
      simp [listMarketsParams, listMarketsRequiredParams, listMarketsOptionalPairs,
        List.lookup, h, lookup_optFilter_cons_ne, optFilter_cons_some]

theorem lookup_lm_limit (a : ListMarketsArgs) :
    List.lookup "limit" (listMarketsParams a) = some (PyVal.int a.limit) := by
  simp [listMarketsParams, listMarketsRequiredParams, List.lookup]

theorem lookup_lm_offset (a : ListMarketsArgs) :
    List.lookup "offset" (listMarketsParams a) = some (PyVal.int a.offset) := by
  simp [listMarketsParams, listMarketsRequiredParams, List.lookup]

theorem lookup_lm_sort_by (a : ListMarketsArgs) :
    List.lookup "sort_by" (listMarketsParams a) = some (PyVal.str a.sort_by) := by
  simp [listMarketsParams, listMarketsRequiredParams, List.lookup]

theorem lookup_lm_sort_dir (a : ListMarketsArgs) :
    List.lookup "sort_dir" (listMarketsParams a) = some (PyVal.str a.sort_dir) := by
  simp [listMarketsParams, listMarketsRequiredParams, List.lookup]

theorem lookup_lm_include_closed (a : ListMarketsArgs) :
    List.lookup "include_closed" (listMarketsParams a)
      = some (PyVal.str (pyStrBoolLower a.include_closed)) := by
  simp [listMarketsParams, listMarketsRequiredParams, List.lookup]

theorem lookup_lm_include_resolved (a : ListMarketsArgs) :
    List.lookup "include_resolved" (listMarketsParams a)
      = some (PyVal.str (pyStrBoolLower a.include_resolved)) := by
  simp [listMarketsParams, listMarketsRequiredParams, List.lookup]

theorem lookup_lm_status (a : ListMarketsArgs) :
    List.lookup "status" (listMarketsParams a) = a.status.map PyVal.str := by
  cases h : a.status with
  | none =>
      simp [listMarketsParams, listMarketsRequiredParams, listMarketsOptionalPairs,
        List.lookup, h, lookup_optFilter_cons_ne, optFilter_cons_none, optFilter_nil]
  | some v =>
      simp [listMarketsParams, listMarketsRequiredParams, listMarketsOptionalPairs,
        List.lookup, h, lookup_optFilter_cons_ne, optFilter_cons_some]

theorem lookup_lm_category (a : ListMarketsArgs) :
    List.lookup "category" (listMarketsParams a) = a.category.map PyVal.str := by
  cases h : a.category with
  | none =>
      simp [listMarketsParams, listMarketsRequiredParams, listMarketsOptionalPairs,
        List.lookup, h, lookup_optFilter_cons_ne, optFilter_cons_none, optFilter_nil]
  | some v =>
      simp [listMarketsParams, listMarketsRequiredParams, listMarketsOptionalPairs,
        List.lookup, h, lookup_optFilter_cons_ne, optFilter_cons_some]

theorem lookup_lm_market_type (a : ListMarketsArgs) :
    List.lookup "market_type" (listMarketsParams a) = a.market_type.map PyVal.str := by
  cases h : a.market_type with
  | none =>
      simp [listMarketsParams, listMarketsRequiredParams, listMarketsOptionalPairs,
        List.lookup, h, lookup_optFilter_cons_ne, optFilter_cons_none, optFilter_nil]
  | some v =>
      simp [listMarketsParams, listMarketsRequiredParams, listMarketsOptionalPairs,
        List.lookup, h, lookup_optFilter_cons_ne, optFilter_cons_some]

theorem lookup_lm_keyword (a : ListMarketsArgs) :
    List.lookup "keyword" (listMarketsParams a) = a.keyword.map PyVal.str := by
  cases h : a.keyword with
  | none =>
      simp [listMarketsParams, listMarketsRequiredParams, listMarketsOptionalPairs,
        List.lookup, h, lookup_optFilter_cons_ne, optFilter_cons_none, optFilter_nil]
  | some v =>
      simp [listMarketsParams, listMarketsRequiredParams, listMarketsOptionalPairs,
        List.lookup, h, lookup_optFilter_cons_ne, optFilter_cons_some]

theorem lookup_lm_tag (a : ListMarketsArgs) :
    List.lookup "tag" (listMarketsParams a) = a.tag.map PyVal.str := by
  cases h : a.tag with
  | none =>
      simp [listMarketsParams, listMarketsRequiredParams, listMarketsOptionalPairs,
        List.lookup, h, lookup_optFilter_cons_ne, optFilter_cons_none, optFilter_nil]
  | some v =>
      simp [listMarketsParams, listMarketsRequiredParams, listMarketsOptionalPairs,
        List.lookup, h, lookup_optFilter_cons_ne, optFilter_cons_some]

theorem lookup_lm_created_after (a : ListMarketsArgs) :
    List.lookup "created_after" (listMarketsParams a) = a.created_after.map PyVal.str := by
  cases h : a.created_after with
  | none =>
      simp [listMarketsParams, listMarketsRequiredParams, listMarketsOptionalPairs,
        List.lookup, h, lookup_optFilter_cons_ne, optFilter_cons_none, optFilter_nil]
  | some v =>
      simp [listMarketsParams, listMarketsRequiredParams, listMarketsOptionalPairs,
        List.lookup, h, lookup_optFilter_cons_ne, optFilter_cons_some]

theorem lookup_lm_created_before (a : ListMarketsArgs) :
    List.lookup "created_before" (listMarketsParams a) = a.created_before.map PyVal.str := by
  cases h : a.created_before with
  | none =>
      simp [listMarketsParams, listMarketsRequiredParams, listMarketsOptionalPairs,
        List.lookup, h, lookup_optFilter_cons_ne, optFilter_cons_none, optFilter_nil]
  | some v =>
      simp [listMarketsParams, listMarketsRequiredParams, listMarketsOptionalPairs,
        List.lookup, h, lookup_optFilter_cons_ne, optFilter_cons_some]

theorem lookup_lm_probability_min (a : ListMarketsArgs) :
    List.lookup "probability_min" (listMarketsParams a)
      = a.probability_min.map PyVal.float := by
  cases h : a.probability_min with
  | none =>
      simp [listMarketsParams, listMarketsRequiredParams, listMarketsOptionalPairs,
        List.lookup, h, lookup_optFilter_cons_ne, optFilter_cons_none, optFilter_nil]
  | some v =>
      simp [listMarketsParams, listMarketsRequiredParams, listMarketsOptionalPairs,
        List.lookup, h, lookup_optFilter_cons_ne, optFilter_cons_some]

theorem lookup_lm_probability_max (a : ListMarketsArgs) :
    List.lookup "probability_max" (listMarketsParams a)
      = a.probability_max.map PyVal.float := by
  cases h : a.probability_max with
  | none =>
      simp [listMarketsParams, listMarketsRequiredParams, listMarketsOptionalPairs,
        List.lookup, h, lookup_optFilter_cons_ne, optFilter_cons_none, optFilter_nil]
  | some v =>
      simp [listMarketsParams, listMarketsRequiredParams, listMarketsOptionalPairs,
        List.lookup, h, lookup_optFilter_cons_ne, optFilter_cons_some]

/-! ### Claim theorems -/

/-- C3: whenever the credential argument is omitted (`None`) or empty and
the `ADJ_NEWS_API_KEY` environment fallback is also absent or empty,
construction fails immediately with the construction-time error
(`AdjNewsError("ADJ_NEWS_API_KEY Not Found.")`, the spec's
`ConfigurationError`) and no client value is produced. -/
theorem construction_fails_without_credential (api_key env : Option String)
    (h1 : pyTruthyOptStr api_key = false) (h2 : pyTruthyOptStr env = false) :
    adjNewsInit api_key env = Except.error credentialNotFoundExc := by
  simp [adjNewsInit, h1, h2]

/-- Witness for C3: constructing with the argument omitted and the
environment variable unset yields the configuration error. -/
theorem construction_fails_without_credential_w :
    adjNewsInit Option.none Option.none = Except.error credentialNotFoundExc :=
  construction_fails_without_credential Option.none Option.none rfl rfl

/-- C4: for every non-empty credential string, construction succeeds, the
stored key is that string, the session's default headers contain
`Authorization: Bearer <credential>` and `Accept: application/json`, and
every subsequent request issued through the session carries both headers. -/
theorem construction_with_nonempty_credential (k : String) (env : Option String)
    (h : k ≠ "") :
    ∃ c : Client, adjNewsInit (Option.some k) env = Except.ok c
      ∧ c.api_key = k
      ∧ ("Authorization", "Bearer " ++ k) ∈ c.sessionHeaders
      ∧ ("Accept", "application/json") ∈ c.sessionHeaders
      ∧ ∀ (endpoint : String) (params : List (String × PyVal)) (o : TransportOutcome),
          ("Authorization", "Bearer " ++ k) ∈ (clientGet c endpoint params o).request.headers
          ∧ ("Accept", "application/json") ∈ (clientGet c endpoint params o).request.headers := by
  refine ⟨{ api_key := k, sessionHeaders := initSessionHeaders k }, ?_, rfl, ?_, ?_, ?_⟩
  · simp [adjNewsInit, pyTruthyOptStr, h]
  · simp [initSessionHeaders]
  · simp [initSessionHeaders]
  · intro endpoint params o
    exact ⟨by simp [clientGet, initSessionHeaders], by simp [clientGet, initSessionHeaders]⟩

/-- Witness for C4: the credential "secret-key" yields a client whose
session headers carry both default headers on every request. -/
theorem construction_with_nonempty_credential_w :
    ∃ c : Client, adjNewsInit (Option.some "secret-key") Option.none = Except.ok c
      ∧ c.api_key = "secret-key"
      ∧ ("Authorization", "Bearer " ++ "secret-key") ∈ c.sessionHeaders
      ∧ ("Accept", "application/json") ∈ c.sessionHeaders
      ∧ ∀ (endpoint : String) (params : List (String × PyVal)) (o : TransportOutcome),
          ("Authorization", "Bearer " ++ "secret-key") ∈ (clientGet c endpoint params o).request.headers
          ∧ ("Accept", "application/json") ∈ (clientGet c endpoint params o).request.headers :=
  construction_with_nonempty_credential "secret-key" Option.none (by decide)

/-- C6: URL joining is exactly "strip trailing slashes from the base,
strip leading slashes from the path, join with one slash", so any two
base/path pairs that agree after stripping produce the same URL, and both
spelled-out example pairs produce
`https://api.example.com/api/markets`. -/
theorem url_join_normalizes (b1 b2 p1 p2 : String)
    (hb : pyRstripChar '/' b1 = pyRstripChar '/' b2)
    (hp : pyLstripChar '/' p1 = pyLstripChar '/' p2) :
    joinUrl b1 p1 = joinUrl b2 p2
    ∧ joinUrl "https://api.example.com/" "/api/markets" = "https://api.example.com/api/markets"
    ∧ joinUrl "https://api.example.com" "api/markets" = "https://api.example.com/api/markets" := by
  refine ⟨?_, by decide, by decide⟩
  simp [joinUrl, hb, hp]

/-- Witness for C6: the two example pairs agree after stripping and both
join to the expected URL. -/
theorem url_join_normalizes_w :
    joinUrl "https://api.example.com/" "/api/markets"
        = joinUrl "https://api.example.com" "api/markets"
    ∧ joinUrl "https://api.example.com/" "/api/markets" = "https://api.example.com/api/markets"
    ∧ joinUrl "https://api.example.com" "api/markets" = "https://api.example.com/api/markets" :=
  url_join_normalizes "https://api.example.com/" "https://api.example.com"
    "/api/markets" "api/markets" (by decide) (by decide)

/-- C9: no operation mutates client state: after any `semantic_search`,
`list_markets` or `_get` call — succeeding or failing — the client, its
stored credential and its session's default headers are exactly what they
were before the call. -/
theorem calls_do_not_mutate_client (c : Client) (q : String) (lim : ℤ) (ic : Bool)
    (a : ListMarketsArgs) (ep : String) (ps : List (String × PyVal))
    (o1 o2 o3 : TransportOutcome) :
    (semantic_search c q lim ic o1).client = c
    ∧ (list_markets c a o2).client = c
    ∧ (clientGet c ep ps o3).client = c
    ∧ (semantic_search c q lim ic o1).client.api_key = c.api_key
    ∧ (semantic_search c q lim ic o1).client.sessionHeaders = c.sessionHeaders
    ∧ (list_markets c a o2).client.api_key = c.api_key
    ∧ (list_markets c a o2).client.sessionHeaders = c.sessionHeaders :=
  ⟨rfl, rfl, rfl, rfl, rfl, rfl, rfl⟩

/-- C5: in every `list_markets` call the six required/defaulted parameters
are present with their given values, and each of the ten optional
parameters is present exactly when the caller supplied a non-absent value
(its looked-up value being the supplied one); an unset optional parameter's
name does not occur among the assembled keys at all. -/
theorem list_markets_param_assembly (a : ListMarketsArgs) :
    (List.lookup "limit" (listMarketsParams a) = some (PyVal.int a.limit)
     ∧ List.lookup "offset" (listMarketsParams a) = some (PyVal.int a.offset)
     ∧ List.lookup "sort_by" (listMarketsParams a) = some (PyVal.str a.sort_by)
     ∧ List.lookup "sort_dir" (listMarketsParams a) = some (PyVal.str a.sort_dir)
     ∧ List.lookup "include_closed" (listMarketsParams a)
         = some (PyVal.str (pyStrBoolLower a.include_closed))
     ∧ List.lookup "include_resolved" (listMarketsParams a)
         = some (PyVal.str (pyStrBoolLower a.include_resolved)))
    ∧ (List.lookup "platform" (listMarketsParams a) = a.platform.map PyVal.str
       ∧ List.lookup "status" (listMarketsParams a) = a.status.map PyVal.str
       ∧ List.lookup "category" (listMarketsParams a) = a.category.map PyVal.str
       ∧ List.lookup "market_type" (listMarketsParams a) = a.market_type.map PyVal.str
       ∧ List.lookup "keyword" (listMarketsParams a) = a.keyword.map PyVal.str
       ∧ List.lookup "tag" (listMarketsParams a) = a.tag.map PyVal.str
       ∧ List.lookup "created_after" (listMarketsParams a) = a.created_after.map PyVal.str
       ∧ List.lookup "created_before" (listMarketsParams a) = a.created_before.map PyVal.str
       ∧ List.lookup "probability_min" (listMarketsParams a) = a.probability_min.map PyVal.float
       ∧ List.lookup "probability_max" (listMarketsParams a) = a.probability_max.map PyVal.float)
    ∧ (("platform" ∈ (listMarketsParams a).map Prod.fst ↔ a.platform.isSome = true)
       ∧ ("status" ∈ (listMarketsParams a).map Prod.fst ↔ a.status.isSome = true)
       ∧ ("category" ∈ (listMarketsParams a).map Prod.fst ↔ a.category.isSome = true)
       ∧ ("market_type" ∈ (listMarketsParams a).map Prod.fst ↔ a.market_type.isSome = true)
       ∧ ("keyword" ∈ (listMarketsParams a).map Prod.fst ↔ a.keyword.isSome = true)
       ∧ ("tag" ∈ (listMarketsParams a).map Prod.fst ↔ a.tag.isSome = true)
       ∧ ("created_after" ∈ (listMarketsParams a).map Prod.fst ↔ a.created_after.isSome = true)
       ∧ ("created_before" ∈ (listMarketsParams a).map Prod.fst ↔ a.created_before.isSome = true)
       ∧ ("probability_min" ∈ (listMarketsParams a).map Prod.fst ↔ a.probability_min.isSome = true)
       ∧ ("probability_max" ∈ (listMarketsParams a).map Prod.fst ↔ a.probability_max.isSome = true)) := by
  refine ⟨⟨lookup_lm_limit a, lookup_lm_offset a, lookup_lm_sort_by a,
      lookup_lm_sort_dir a, lookup_lm_include_closed a, lookup_lm_include_resolved a⟩,
    ⟨lookup_lm_platform a, lookup_lm_status a, lookup_lm_category a,
      lookup_lm_market_type a, lookup_lm_keyword a, lookup_lm_tag a,
      lookup_lm_created_after a, lookup_lm_created_before a,
      lookup_lm_probability_min a, lookup_lm_probability_max a⟩,
    ?_, ?_, ?_, ?_, ?_, ?_, ?_, ?_, ?_, ?_⟩
  · rw [← lookup_isSome_iff_mem_keys, lookup_lm_platform]; cases a.platform <;> simp
  · rw [← lookup_isSome_iff_mem_keys, lookup_lm_status]; cases a.status <;> simp
  · rw [← lookup_isSome_iff_mem_keys, lookup_lm_category]; cases a.category <;> simp
  · rw [← lookup_isSome_iff_mem_keys, lookup_lm_market_type]; cases a.market_type <;> simp
  · rw [← lookup_isSome_iff_mem_keys, lookup_lm_keyword]; cases a.keyword <;> simp
  · rw [← lookup_isSome_iff_mem_keys, lookup_lm_tag]; cases a.tag <;> simp
  · rw [← lookup_isSome_iff_mem_keys, lookup_lm_created_after]; cases a.created_after <;> simp
  · rw [← lookup_isSome_iff_mem_keys, lookup_lm_created_before]; cases a.created_before <;> simp
  · rw [← lookup_isSome_iff_mem_keys, lookup_lm_probability_min]; cases a.probability_min <;> simp
  · rw [← lookup_isSome_iff_mem_keys, lookup_lm_probability_max]; cases a.probability_max <;> simp

/-- C10: inclusion of an optional `list_markets` parameter is decided only
by the `is not None` test, never by falsiness: any supplied value — the
empty string and `0.0` included — is placed in the parameter set. -/
theorem omission_decided_by_none_only (a : ListMarketsArgs) :
    (∀ v, a.platform = some v →
        List.lookup "platform" (listMarketsParams a) = some (PyVal.str v))
    ∧ (∀ v, a.status = some v →
        List.lookup "status" (listMarketsParams a) = some (PyVal.str v))
    ∧ (∀ v, a.category = some v →
        List.lookup "category" (listMarketsParams a) = some (PyVal.str v))
    ∧ (∀ v, a.market_type = some v →
        List.lookup "market_type" (listMarketsParams a) = some (PyVal.str v))
    ∧ (∀ v, a.keyword = some v →
        List.lookup "keyword" (listMarketsParams a) = some (PyVal.str v))
    ∧ (∀ v, a.tag = some v →
        List.lookup "tag" (listMarketsParams a) = some (PyVal.str v))
    ∧ (∀ v, a.created_after = some v →
        List.lookup "created_after" (listMarketsParams a) = some (PyVal.str v))
    ∧ (∀ v, a.created_before = some v →
        List.lookup "created_before" (listMarketsParams a) = some (PyVal.str v))
    ∧ (∀ v, a.probability_min = some v →
        List.lookup "probability_min" (listMarketsParams a) = some (PyVal.float v))
    ∧ (∀ v, a.probability_max = some v →
        List.lookup "probability_max" (listMarketsParams a) = some (PyVal.float v)) := by
  refine ⟨fun v h => ?_, fun v h => ?_, fun v h => ?_, fun v h => ?_, fun v h => ?_,
    fun v h => ?_, fun v h => ?_, fun v h => ?_, fun v h => ?_, fun v h => ?_⟩
  · rw [lookup_lm_platform, h]; rfl
  · rw [lookup_lm_status, h]; rfl
  · rw [lookup_lm_category, h]; rfl
  · rw [lookup_lm_market_type, h]; rfl
  · rw [lookup_lm_keyword, h]; rfl
  · rw [lookup_lm_tag, h]; rfl
  · rw [lookup_lm_created_after, h]; rfl
  · rw [lookup_lm_created_before, h]; rfl
  · rw [lookup_lm_probability_min, h]; rfl
  · rw [lookup_lm_probability_max, h]; rfl

/-- Witness for C10: with `platform=""` (empty string) and
`probability_min=0.0` — both falsy, neither `None` — the two parameters
are included with exactly those values. -/
theorem omission_decided_by_none_only_w :
    List.lookup "platform"
        (listMarketsParams { listMarketsDefaults with
          platform := some "", probability_min := some 0 })
      = some (PyVal.str "")
    ∧ List.lookup "probability_min"
        (listMarketsParams { listMarketsDefaults with
          platform := some "", probability_min := some 0 })
      = some (PyVal.float 0) :=
  ⟨(omission_decided_by_none_only _).1 "" rfl,
   (omission_decided_by_none_only _).2.2.2.2.2.2.2.2.1 0 rfl⟩

/-- Counterexample to C1: `semantic_search` places `include_context` in the
parameter set as the native boolean, not as the lowercase string the claim
requires — at `include_context=True` the assembled value is `PyVal.bool
true`, which is neither the string `"true"` nor the string `"false"`. -/
theorem include_context_is_native_bool_cex :
    List.lookup "include_context" (semanticSearchParams "inflation" 10 true)
        = some (PyVal.bool true)
    ∧ List.lookup "include_context" (semanticSearchParams "inflation" 10 true)
        ≠ some (PyVal.str "true")
    ∧ List.lookup "include_context" (semanticSearchParams "inflation" 10 true)
        ≠ some (PyVal.str "false") := by
  decide

/-- C1 as amended: the two booleans of `list_markets`
(`include_closed`, `include_resolved`) are serialized via
`str(b).lower()` into exactly the lowercase strings `"true"`/`"false"`,
but `include_context` in `semantic_search` is placed in the parameter set
as the language-native boolean value, unconverted. -/
theorem boolean_param_serialization (a : ListMarketsArgs) (q : String)
    (lim : ℤ) (b : Bool) :
    List.lookup "include_closed" (listMarketsParams a)
        = some (PyVal.str (pyStrBoolLower a.include_closed))
    ∧ List.lookup "include_resolved" (listMarketsParams a)
        = some (PyVal.str (pyStrBoolLower a.include_resolved))
    ∧ (pyStrBoolLower a.include_closed = "true" ∨ pyStrBoolLower a.include_closed = "false")
    ∧ (pyStrBoolLower a.include_resolved = "true" ∨ pyStrBoolLower a.include_resolved = "false")
    ∧ List.lookup "include_context" (semanticSearchParams q lim b)
        = some (PyVal.bool b) := by
  refine ⟨lookup_lm_include_closed a, lookup_lm_include_resolved a, ?_, ?_, ?_⟩
  · cases a.include_closed <;> simp [pyStrBoolLower]
  · cases a.include_resolved <;> simp [pyStrBoolLower]
  · rfl

/-- Counterexample to C2: `SemanticSearch("inflation", limit=5)` with
`include_context` at its default does not assemble
`{q: "inflation", limit: 5, include_context: "false"}` — the
`include_context` value is the native boolean `False`, not the string
`"false"`. -/
theorem semantic_search_scenario_cex :
    semanticSearchParams "inflation" 5 semanticSearchIncludeContextDefault
      ≠ [("q", PyVal.str "inflation"), ("limit", PyVal.int 5),
         ("include_context", PyVal.str "false")] := by
  decide

/-- C2 as amended: `SemanticSearch("inflation", limit=5)` with
`include_context` at its default assembles exactly
`{q: "inflation", limit: 5, include_context: False}` (the native boolean),
and on a success response whose body decodes to `j` it returns `j`
unchanged. -/
theorem semantic_search_scenario (c : Client) (j : Json) (sd dd : String) :
    semanticSearchParams "inflation" 5 semanticSearchIncludeContextDefault
        = [("q", PyVal.str "inflation"), ("limit", PyVal.int 5),
           ("include_context", PyVal.bool false)]
    ∧ (semantic_search c "inflation" 5 semanticSearchIncludeContextDefault
          (TransportOutcome.resp 200 sd (some j) dd)).request.params
        = semanticSearchParams "inflation" 5 false
    ∧ (semantic_search c "inflation" 5 semanticSearchIncludeContextDefault
          (TransportOutcome.resp 200 sd (some j) dd)).result = Except.ok j := by
  refine ⟨rfl, rfl, ?_⟩
  simp [semantic_search, clientGet, adjGetResult, httpErrorStatus]

/-- C7: every transport failure — a `RequestException` from `session.get`,
an HTTP status in 400–599, or a body that fails JSON decoding — makes
`_get` raise `AdjNewsError` with message
`GET <constructed url> failed: <underlying cause>` (so the message carries
the request URL and the cause) and return no payload, while a response
whose status passes `raise_for_status` and whose body decodes to `j`
returns exactly `j`. -/
theorem get_error_translation (c : Client) (endpoint : String)
    (params : List (String × PyVal)) (o : TransportOutcome)
    (status : ℕ) (sd dd : String) (j : Json) :
    (outcomeFails o = true →
        (clientGet c endpoint params o).result
          = Except.error ⟨"AdjNewsError",
              "GET " ++ joinUrl BASE_URL endpoint ++ " failed: " ++ outcomeCauseDesc o⟩)
    ∧ (httpErrorStatus status = false →
        (clientGet c endpoint params
            (TransportOutcome.resp status sd (some j) dd)).result = Except.ok j) := by
  constructor
  · intro hf
    cases o with
    | exc d => rfl
    | resp st sd2 body dd2 =>
      cases hs : httpErrorStatus st with
      | true => simp [clientGet, adjGetResult, outcomeCauseDesc, hs]
      | false =>
        have hb : body.isNone = true := by
          simpa [outcomeFails, hs] using hf
        cases body with
        | none => simp [clientGet, adjGetResult, outcomeCauseDesc, hs]
        | some jj => simp at hb
  · intro hs
    simp [clientGet, adjGetResult, hs]

/-- Witness for C7: a simulated HTTP 500 with undecodable body yields the
wrapped `AdjNewsError` carrying the URL and the cause; a 200 response with
a decodable body returns the decoded value. -/
theorem get_error_translation_w :
    (clientGet ⟨"k", initSessionHeaders "k"⟩ "/api/markets" []
        (TransportOutcome.resp 500 "500 Server Error" Option.none "no body")).result
      = Except.error ⟨"AdjNewsError",
          "GET " ++ joinUrl BASE_URL "/api/markets" ++ " failed: "
            ++ outcomeCauseDesc
                 (TransportOutcome.resp 500 "500 Server Error" Option.none "no body")⟩
    ∧ (clientGet ⟨"k", initSessionHeaders "k"⟩ "/api/markets" []
        (TransportOutcome.resp 200 "" (some Json.null) "")).result
      = Except.ok Json.null :=
  ⟨(get_error_translation ⟨"k", initSessionHeaders "k"⟩ "/api/markets" []
      (TransportOutcome.resp 500 "500 Server Error" Option.none "no body")
      200 "" "" Json.null).1 (by decide),
   (get_error_translation ⟨"k", initSessionHeaders "k"⟩ "/api/markets" []
      (TransportOutcome.resp 200 "" (some Json.null) "")
      200 "" "" Json.null).2 (by decide)⟩

/-- Counterexample to C8: there are not two error kinds a caller can tell
apart — the construction-time failure and a transport failure are raised
with one and the same exception class `AdjNewsError`. -/
theorem single_error_class_cex :
    adjNewsInit Option.none Option.none
        = Except.error ⟨"AdjNewsError", "ADJ_NEWS_API_KEY Not Found."⟩
    ∧ (clientGet ⟨"k", initSessionHeaders "k"⟩ "/api/markets" []
        (TransportOutcome.resp 500 "boom" Option.none "x")).result
        = Except.error ⟨"AdjNewsError",
            "GET https://api.data.adj.news/api/markets failed: boom"⟩
    ∧ PyExc.cls ⟨"AdjNewsError", "ADJ_NEWS_API_KEY Not Found."⟩
        = PyExc.cls ⟨"AdjNewsError",
            "GET https://api.data.adj.news/api/markets failed: boom"⟩ :=
  ⟨rfl, rfl, rfl⟩

/-- C8 as amended: the client raises a single exception class,
`AdjNewsError`, for both failure modes — at construction when no usable
credential is found (message `ADJ_NEWS_API_KEY Not Found.`) and during a
`Get` call on network failure, HTTP error status or JSON decode failure
(message `GET <url> failed: <cause>`); the two cases are distinguishable
only by context and message, not by exception class. -/
theorem errors_share_single_class :
    (∀ (k env : Option String) (e : PyExc),
        adjNewsInit k env = Except.error e →
        e.cls = "AdjNewsError" ∧ e.msg = "ADJ_NEWS_API_KEY Not Found.")
    ∧ (∀ (c : Client) (endpoint : String) (params : List (String × PyVal))
          (o : TransportOutcome) (e : PyExc),
        (clientGet c endpoint params o).result = Except.error e →
        e.cls = "AdjNewsError"
          ∧ e.msg = "GET " ++ joinUrl BASE_URL endpoint ++ " failed: "
              ++ outcomeCauseDesc o) := by
  constructor
  · intro k env e h
    cases ht : pyTruthyOptStr (if pyTruthyOptStr k then k else env) with
    | true => simp [adjNewsInit, ht] at h
    | false =>
      simp [adjNewsInit, ht] at h
      subst h
      exact ⟨rfl, rfl⟩
  · intro c endpoint params o e h
    cases o with
    | exc d =>
      simp [clientGet, adjGetResult] at h
      subst h
      exact ⟨rfl, rfl⟩
    | resp st sd body dd =>
      cases hs : httpErrorStatus st with
      | true =>
        simp [clientGet, adjGetResult, hs] at h
        subst h
        exact ⟨rfl, by simp [outcomeCauseDesc, hs]⟩
      | false =>
        cases body with
        | some j => simp [clientGet, adjGetResult, hs] at h
        | none =>
          simp [clientGet, adjGetResult, hs] at h
          subst h
          exact ⟨rfl, by simp [outcomeCauseDesc, hs]⟩

/-- Witness for C8's amended theorem: both a concrete failed construction
and a concrete failed `Get` produce errors of the single class
`AdjNewsError` with the stated messages. -/
theorem errors_share_single_class_w :
    (PyExc.cls credentialNotFoundExc = "AdjNewsError"
      ∧ PyExc.msg credentialNotFoundExc = "ADJ_NEWS_API_KEY Not Found.")
    ∧ (PyExc.cls ⟨"AdjNewsError", "GET https://api.data.adj.news/api/markets failed: boom"⟩
        = "AdjNewsError"
      ∧ PyExc.msg ⟨"AdjNewsError", "GET https://api.data.adj.news/api/markets failed: boom"⟩
        = "GET " ++ joinUrl BASE_URL "/api/markets" ++ " failed: "
            ++ outcomeCauseDesc (TransportOutcome.exc "boom")) :=
  ⟨errors_share_single_class.1 Option.none Option.none credentialNotFoundExc rfl,
   errors_share_single_class.2 ⟨"k", initSessionHeaders "k"⟩ "/api/markets" []
     (TransportOutcome.exc "boom")
     ⟨"AdjNewsError", "GET https://api.data.adj.news/api/markets failed: boom"⟩
     rfl⟩

end AdjNewsSDK
